import Mathlib

/-
Verification of the natural-language specification of appshot's generation
orchestrator (src/generate.mjs) against a shallow embedding of the source.

Conventions of the embedding:
- JavaScript strings are Lean `String` (a list of Chars in this toolchain).
- `path.join(a, b, ...)` is modelled as interleaving the segments with the
  separator `'/'` (segments are taken verbatim; no `..` normalisation, which
  no claim exercises).
- Asynchronous page operations cannot run for real here; each operation is an
  event in a trace, and whether an operation throws is an environment
  parameter.  This mirrors the source's control flow exactly: the source
  decides nothing from an operation's value, only from thrown / not thrown.
-/

namespace Appshot

/-- Constants from src/generate.mjs lines 55-58. -/
def MAX_RETRIES : Nat := 3

/-- src/generate.mjs line 56: fixed canvas settle delay (ms). -/
def CANVAS_WAIT_MS : Nat := 2000

/-- src/generate.mjs line 57: download wait bound (ms). -/
def DOWNLOAD_TIMEOUT_MS : Nat := 30000

/-- src/generate.mjs line 58: declared 90s-per-screenshot bound (ms). -/
def PER_SCREENSHOT_TIMEOUT_MS : Nat := 90000

/-- Char-list version of the needle (first argument) being an initial segment
of the hay (second argument). -/
def startsWithChars : List Char → List Char → Bool
  | [], _ => true
  | _ :: _, [] => false
  | a :: as, b :: bs => a == b && startsWithChars as bs

/-- JavaScript `String.prototype.includes`: `needle` occurs contiguously in `hay`. -/
def containsSub (hay needle : List Char) : Bool :=
  match hay with
  | [] => needle.isEmpty
  | _ :: t => startsWithChars needle hay || containsSub t needle

/-- JavaScript `toLowerCase()` (ASCII-faithful, as used on device labels). -/
def jsToLower (s : String) : String := ⟨s.data.map Char.toLower⟩

/-- `hay.toLowerCase().includes(needle)` as used in src/generate.mjs
lines 509 and 592. -/
def containsLC (hay needle : String) : Bool :=
  containsSub (jsToLower hay).data needle.data

/-- The characters matched by the JavaScript regex class backslash-s
(whitespace), used by `sanitizeSize`. -/
def isJsWs (c : Char) : Bool :=
  c == ' ' || c == '\t' || c == '\n' || c == '\r' ||
  c.toNat == 11 || c.toNat == 12 || c.toNat == 160 || c.toNat == 0x1680 ||
  (0x2000 ≤ c.toNat && c.toNat ≤ 0x200A) ||
  c.toNat == 0x2028 || c.toNat == 0x2029 || c.toNat == 0x202F ||
  c.toNat == 0x205F || c.toNat == 0x3000 || c.toNat == 0xFEFF

/-- `sizeName.replace(/"/g, '_')`: every double-quote character becomes an
underscore (src/generate.mjs line 107, first replace). -/
def replaceQuotes (l : List Char) : List Char :=
  l.map (fun c => if c == '"' then '_' else c)

/-- `.replace(/\s+/g, '_')`: every maximal run of whitespace becomes one
underscore (src/generate.mjs line 107, second replace).  The boolean flag
records whether the previous character was part of a whitespace run. -/
def collapseWs : Bool → List Char → List Char
  | _, [] => []
  | prevWs, c :: rest =>
    if isJsWs c then
      if prevWs then collapseWs true rest
      else '_' :: collapseWs true rest
    else c :: collapseWs false rest

/-- `sanitizeSize` from src/generate.mjs lines 106-108:
`sizeName.replace(/"/g, '_').replace(/\s+/g, '_')`. -/
def sanitizeSize (sizeName : String) : String :=
  ⟨collapseWs false (replaceQuotes sizeName.data)⟩

/-- `path.join` modelled on char lists: segments interleaved with `'/'`.
Shape of the output path built at src/generate.mjs lines 410-411:
`join(outputDir, locale, sizeFolder, id + ".png")`. -/
def pathChars (root l z i : List Char) : List Char :=
  root ++ '/' :: (l ++ '/' :: (z ++ '/' :: (i ++ ".png".data)))

/-- The output path of one task, src/generate.mjs lines 410-411:
`join(outputDir, locale, sanitizeSize(size.device), screenshotId + ".png")`. -/
def outputPath (outputDir locale sizeLabel screenshotId : String) : String :=
  ⟨pathChars outputDir.data locale.data (sanitizeSize sizeLabel).data
    screenshotId.data⟩

/-- `size.rawDir || 'raw'` from src/generate.mjs line 408. -/
def sizeRawDirName (rawDir : Option String) : String := rawDir.getD "raw"

/-- The resolved input path of one task, src/generate.mjs lines 408-409:
`join(join(dirname, size.rawDir || "raw"), locale, screenshotId + ".png")`. -/
def rawPath (dirname rawDir locale screenshotId : String) : String :=
  ⟨pathChars dirname.data rawDir.data locale.data screenshotId.data⟩

/-- `CONTEXT_REFRESH_INTERVAL` from src/generate.mjs lines 509-510:
6 when `size.device.toLowerCase().includes("ipad")`, else 12. -/
def refreshInterval (device : String) : Nat :=
  if containsLC device "ipad" then 6 else 12

/-- The wave predicate from src/generate.mjs line 592:
`s.device.toLowerCase().includes("iphone")`. -/
def isIphoneSize (device : String) : Bool := containsLC device "iphone"

/-- A YUZU toggle control under flip semantics: a click inverts the
`active` class (the `.click()` calls in src/generate.mjs). -/
def clickToggle (active : Bool) : Bool := !active

/-- Frame/border enable from `configureDevice`, src/generate.mjs
lines 296-305: click unconditionally, read back `active`, and click again
when the read-back shows inactive. -/
def frameToggleVerify (active : Bool) : Bool :=
  let afterClick := clickToggle active
  if afterClick then afterClick else clickToggle afterClick

/-- Headline enable from `configureText`, src/generate.mjs lines 328-333:
read `active` first, click only when inactive. -/
def headlineToggleEnable (active : Bool) : Bool :=
  if active then active else clickToggle active

/-- Subheadline disable from `configureText`, src/generate.mjs
lines 372-377: read `active` first, click only when active. -/
def subheadlineToggleDisable (active : Bool) : Bool :=
  if active then clickToggle active else active

/-- Outcome of the `fetch("http://localhost:8080", HEAD)` probe in
`detectYuzuUrl` (src/generate.mjs lines 74-85): the response may be ok,
may be a non-ok response, or the fetch may throw (refused / 3s timeout). -/
inductive ProbeResult where
  | ok
  | notOk
  | failed
deriving DecidableEq

/-- src/generate.mjs line 81. -/
def localUrl : String := "http://localhost:8080"

/-- src/generate.mjs line 89. -/
def liveDemoUrl : String := "https://yuzu-hub.github.io/appscreen/"

/-- `detectYuzuUrl` from src/generate.mjs lines 67-90: returns the CLI
`--yuzu-url` override immediately when supplied; otherwise returns the local
address when the probe response is ok; otherwise the live-demo fallback. -/
def detectYuzuUrl (yuzuBaseUrl : Option String) (probe : ProbeResult) : String :=
  match yuzuBaseUrl with
  | some u => u
  | none =>
    match probe with
    | ProbeResult.ok => localUrl
    | ProbeResult.notOk => liveDemoUrl
    | ProbeResult.failed => liveDemoUrl

/-- One page-level operation of the per-attempt chain in `processScreenshot`
(src/generate.mjs lines 426-440), or the missing-source log of line 420. -/
inductive Ev where
  | reload
  | settle (ms : Nat)
  | selectSize
  | upload
  | cfgBackground
  | cfgDevice
  | cfgText
  | exportShot
  | logMissing (path : String)
deriving DecidableEq

/-- The operation chain of one attempt, in source order (src/generate.mjs
lines 427-440): reload (networkidle), 500ms settle, `selectOutputSize`,
`uploadScreenshot`, `configureBackground`, `configureDevice`,
`configureText`, `exportScreenshot`. -/
def attemptChain : List Ev :=
  [Ev.reload, Ev.settle 500, Ev.selectSize, Ev.upload,
   Ev.cfgBackground, Ev.cfgDevice, Ev.cfgText, Ev.exportShot]

/-- The recovery sequence run in the catch block before a retry
(src/generate.mjs lines 450-453): 1500ms wait, reload, 1000ms wait. -/
def retrySeq : List Ev :=
  [Ev.settle 1500, Ev.reload, Ev.settle 1000]

/-- Result of a `processScreenshot` call: the boolean it returns, the
attempt number at which it stopped, and the trace of page operations it
performed. -/
structure ShotResult where
  ok : Bool
  attempts : Nat
  trace : List Ev
deriving DecidableEq

/-- `processScreenshot` from src/generate.mjs lines 405-460.
`fileExists` is the outcome of the `access(rawPath)` precondition check
(lines 417-422); `env attempt` tells at which chain index (if any) that
attempt's chain throws — the source branches only on thrown / not thrown,
never on a step's value, so this is the full behaviour.  A missing source
file logs the resolved path and returns false at once; a failing attempt
with `attempt < MAX_RETRIES` runs the catch-block recovery sequence and
recurses with `attempt + 1`; otherwise false is returned — every exception
raised by a chain step is absorbed by the catch. -/
def processScreenshot (fileExists : Bool) (p : String)
    (env : Nat → Option Nat) (attempt : Nat) : ShotResult :=
  if fileExists = false then ⟨false, attempt, [Ev.logMissing p]⟩
  else
    match env attempt with
    | none => ⟨true, attempt, attemptChain⟩
    | some k =>
      if h : attempt < MAX_RETRIES then
        let res := processScreenshot fileExists p env (attempt + 1)
        ⟨res.ok, res.attempts, attemptChain.take (k + 1) ++ retrySeq ++ res.trace⟩
      else ⟨false, attempt, attemptChain.take (k + 1)⟩
termination_by MAX_RETRIES - attempt
decreasing_by simp only [MAX_RETRIES] at h ⊢; omega

/-- How one task's `processScreenshot` call behaves as seen from
`processSize` (src/generate.mjs lines 533-548): it either returns a boolean
normally, or throws a session-fatal error, after which the scheduler
recreates the context and retries once — which again returns a boolean or
throws (then the task is recorded as failed). -/
inductive TaskOutcome where
  | normal (ok : Bool)
  | fatalThen (ok : Bool)
  | fatalTwice
deriving DecidableEq

/-- Scheduler state inside `processSize`: the identity of the current
browser context (incremented at every `createFreshPage`) and
`processedInContext` (src/generate.mjs lines 517-519). -/
structure SchedState where
  ctx : Nat
  processed : Nat
deriving DecidableEq

/-- Observable record of one task iteration: which context the task began
against, how many tasks that context had already processed, and the
recorded outcome. -/
structure TaskRecord where
  ctxAtStart : Nat
  processedAtStart : Nat
  ok : Bool
deriving DecidableEq

/-- One iteration of the task loop in `processSize` (src/generate.mjs
lines 524-556): refresh the context when `processedInContext >= interval`
(lines 526-531), run the task with the out-of-band fatal recovery of
lines 534-548 (a recovery recreates the context and zeroes the counter),
then increment `processedInContext` (line 550). -/
def stepTask (interval : Nat) (st : SchedState) (o : TaskOutcome) :
    TaskRecord × SchedState :=
  let st1 := if st.processed ≥ interval then SchedState.mk (st.ctx + 1) 0 else st
  match o with
  | TaskOutcome.normal ok =>
    (⟨st1.ctx, st1.processed, ok⟩, ⟨st1.ctx, st1.processed + 1⟩)
  | TaskOutcome.fatalThen ok =>
    (⟨st1.ctx, st1.processed, ok⟩, ⟨st1.ctx + 1, 1⟩)
  | TaskOutcome.fatalTwice =>
    (⟨st1.ctx, st1.processed, false⟩, ⟨st1.ctx + 1, 1⟩)

/-- The full task loop of `processSize` over a list of (screenshotId,
locale) pairs, threading the scheduler state; `i` indexes tasks so the
oracle can give each task its own outcome. -/
def runTasks (interval : Nat) (oracle : Nat → TaskOutcome) :
    List (String × String) → Nat → SchedState → List TaskRecord × SchedState
  | [], _, st => ([], st)
  | _ :: rest, i, st =>
    let s := stepTask interval st (oracle i)
    let r := runTasks interval oracle rest (i + 1) s.2
    (s.1 :: r.1, r.2)

/-- One artifact of the configuration: `{ id, titles }` with `titles` an
object mapping locale codes to title text (config.json consumed at
src/generate.mjs line 62; `Object.keys(screenshot.titles)` at line 524). -/
structure Screenshot where
  id : String
  titles : List (String × String)
deriving DecidableEq

/-- One output size of the configuration; only the human-readable `device`
label drives the control flow the claims are about. -/
structure SizeSpec where
  device : String
deriving DecidableEq

/-- The parts of config.json that `main` and `processSize` branch on. -/
structure Config where
  screenshots : List Screenshot
  sizes : List SizeSpec
deriving DecidableEq

/-- The (screenshotId, locale) cross product iterated by the two nested
loops of `processSize` (src/generate.mjs lines 522-524): for each
screenshot, each key of its own `titles` object. -/
def taskList : List Screenshot → List (String × String)
  | [] => []
  | s :: rest => s.titles.map (fun t => (s.id, t.1)) ++ taskList rest

/-- `successCount` of `processSize`: tasks recorded with a true outcome. -/
def successCountOf (recs : List TaskRecord) : Nat :=
  recs.countP (fun r => r.ok)

/-- `failureCount` of `processSize`: tasks recorded with a false outcome. -/
def failureCountOf (recs : List TaskRecord) : Nat :=
  recs.countP (fun r => !r.ok)

/-- `processSize` (src/generate.mjs lines 465-567) reduced to its counters:
runs every (screenshot, locale) task sequentially from a fresh initial
context and returns `{ successCount, failureCount }`. -/
def processSize (shots : List Screenshot) (sz : SizeSpec)
    (oracle : Nat → TaskOutcome) : Nat × Nat :=
  let recs := (runTasks (refreshInterval sz.device) oracle (taskList shots) 0
    ⟨0, 0⟩).1
  (successCountOf recs, failureCountOf recs)

/-- Per-size results in scheduling order (`main`, src/generate.mjs
lines 596-608): the iPhone wave then the remaining sizes; summed counters
do not depend on wave concurrency. -/
def runSizes (shots : List Screenshot) (oracle : Nat → Nat → TaskOutcome) :
    List SizeSpec → Nat → List (Nat × Nat)
  | [], _ => []
  | sz :: rest, i => processSize shots sz (oracle i) :: runSizes shots oracle rest (i + 1)

/-- The scheduling order of `main` (src/generate.mjs lines 592-608):
sizes whose label contains "iphone" first (parallel wave), then the rest
(sequential wave). -/
def sizesInOrder (cfg : Config) : List SizeSpec :=
  cfg.sizes.filter (fun s => isIphoneSize s.device) ++
  cfg.sizes.filter (fun s => !isIphoneSize s.device)

/-- The aggregate state `main` reaches at run end (src/generate.mjs
lines 610-626). -/
structure RunResult where
  successCount : Nat
  failureCount : Nat
  totalExpected : Nat
  exitCode : Nat
deriving DecidableEq

/-- The exact message class of the fatal crash at src/generate.mjs
line 583 when `config.screenshots` is empty: `config.screenshots[0]` is
undefined and reading `.titles` throws. -/
def errTitles : String := "TypeError: cannot read titles of undefined"

/-- `main` from src/generate.mjs lines 572-627.  The `totalScreenshots`
computation (lines 582-584) indexes `config.screenshots[0].titles` with no
guard, so an empty screenshot list throws before any size is scheduled;
the thrown error is modelled as `Except.error`.  Otherwise every size is
processed, the per-size counters are summed (lines 611-612), and the exit
code is 1 exactly when `failureCount > 0` (lines 621-626). -/
def runMain (cfg : Config) (oracle : Nat → Nat → TaskOutcome) :
    Except String RunResult :=
  match cfg.screenshots with
  | [] => Except.error errTitles
  | s0 :: _ =>
    let totalExpected :=
      cfg.screenshots.length * s0.titles.length * cfg.sizes.length
    let counts := runSizes cfg.screenshots oracle (sizesInOrder cfg) 0
    let successCount := (counts.map Prod.fst).sum
    let failureCount := (counts.map Prod.snd).sum
    Except.ok ⟨successCount, failureCount, totalExpected,
      if 0 < failureCount then 1 else 0⟩

/-- Process exit status: `main().catch` at src/generate.mjs lines 630-633
turns any escaped error into `process.exit(1)`; otherwise the exit code
computed by `main` stands. -/
def mainExit (cfg : Config) (oracle : Nat → Nat → TaskOutcome) : Nat :=
  match runMain cfg oracle with
  | Except.error _ => 1
  | Except.ok r => r.exitCode

/-- Every wait / timeout bound (ms) that the source applies to any
operation of the per-attempt chain or its retry recovery: the
`waitForTimeout` delays, the click / `waitForSelector` timeouts, the
canvas settle waits, and `DOWNLOAD_TIMEOUT_MS`
(src/generate.mjs lines 124-453). -/
def appliedTimeoutsMs : List Nat :=
  [150, 200, 300, 500, 1000, 1500, 2000, 3000, 5000, 30000]

/-- Total elapsed time of a trace under a duration assignment for each
operation. -/
def elapsedMs (dur : Ev → Nat) (trace : List Ev) : Nat :=
  (trace.map dur).sum

/-- A duration assignment in which every chain operation stays within the
per-operation bounds the source applies (reload bounded by the 30s default
navigation timeout, upload dominated by the bounded `clearYuzuScreenshots`
loop, exportShot by `DOWNLOAD_TIMEOUT_MS`). -/
def exampleDur : Ev → Nat
  | Ev.reload => 30000
  | Ev.settle ms => ms
  | Ev.selectSize => 1600
  | Ev.upload => 60000
  | Ev.cfgBackground => 800
  | Ev.cfgDevice => 2000
  | Ev.cfgText => 5000
  | Ev.exportShot => 30000
  | Ev.logMissing _ => 0

/-- A configuration whose two screenshots declare the same locale count. -/
def cfgUniform : Config :=
  ⟨[⟨"home", [("en", "Welcome")]⟩, ⟨"detail", [("en", "Details")]⟩],
   [⟨"iPhone 6.9\""⟩]⟩

/-- A configuration whose second screenshot declares more locales than the
first. -/
def cfgMismatch : Config :=
  ⟨[⟨"home", [("en", "Welcome")]⟩,
    ⟨"detail", [("en", "Details"), ("de", "Einzelheiten")]⟩],
   [⟨"iPhone 6.9\""⟩]⟩

/-- A configuration with an empty screenshots list. -/
def cfgNoShots : Config := ⟨[], [⟨"iPhone 6.9\""⟩]⟩

/-- An environment in which every task call returns true normally. -/
def oracleAllOk : Nat → Nat → TaskOutcome := fun _ _ => TaskOutcome.normal true

/- Helper lemmas shared by several claims. -/

/-- A string is determined by its character data. -/
theorem strDataInj (a b : String) (h : a.data = b.data) : a = b := by
  cases a with
  | mk da => cases b with
    | mk db => exact congrArg String.mk h

/-- Splitting at a separator character is unambiguous when neither left part
contains the separator. -/
theorem splitSep (a : List Char) : ∀ (b x y : List Char),
    ('/' : Char) ∉ a → ('/' : Char) ∉ b →
    a ++ '/' :: x = b ++ '/' :: y → a = b ∧ x = y := by
  induction a with
  | nil =>
    intro b x y _ hb h
    cases b with
    | nil => simpa using h
    | cons c bs =>
      simp only [List.nil_append, List.cons_append, List.cons.injEq] at h
      obtain ⟨hc, _⟩ := h
      subst hc
      exact absurd (List.mem_cons_self _ _) hb
  | cons c as ih =>
    intro b x y ha hb h
    cases b with
    | nil =>
      simp only [List.cons_append, List.nil_append, List.cons.injEq] at h
      obtain ⟨hc, _⟩ := h
      subst hc
      exact absurd (List.mem_cons_self _ _) ha
    | cons d bs =>
      simp only [List.cons_append, List.cons.injEq] at h
      obtain ⟨hcd, hrest⟩ := h
      have ha2 : ('/' : Char) ∉ as := fun hm => ha (List.mem_cons_of_mem _ hm)
      have hb2 : ('/' : Char) ∉ bs := fun hm => hb (List.mem_cons_of_mem _ hm)
      obtain ⟨hab, hxy⟩ := ih bs x y ha2 hb2 hrest
      exact ⟨by rw [hcd, hab], hxy⟩

/-- The refresh interval is positive for every device label. -/
theorem refreshIntervalPos (d : String) : 1 ≤ refreshInterval d := by
  unfold refreshInterval; split <;> omega

/-- One scheduler step: the task starts with a within-interval counter and
leaves the counter within the interval. -/
theorem stepTaskBounds (interval : Nat) (st : SchedState) (o : TaskOutcome)
    (h1 : 1 ≤ interval) :
    (stepTask interval st o).1.processedAtStart < interval ∧
    (stepTask interval st o).2.processed ≤ interval := by
  unfold stepTask
  by_cases hc : st.processed ≥ interval <;> cases o <;> simp [hc] <;> omega

/-- One scheduler step from a state whose counter has reached the interval:
the task begins against a newly created context with a zeroed counter. -/
theorem stepTaskRefresh (interval : Nat) (st : SchedState) (o : TaskOutcome)
    (h : st.processed = interval) :
    (stepTask interval st o).1.ctxAtStart = st.ctx + 1 ∧
    (stepTask interval st o).1.processedAtStart = 0 := by
  unfold stepTask
  have hc : st.processed ≥ interval := le_of_eq h.symm
  cases o <;> simp [hc]

/-- Loop invariant of the task loop: every task record starts strictly below
the interval, and the final counter stays within it. -/
theorem runTasksInv (interval : Nat) (oracle : Nat → TaskOutcome)
    (h1 : 1 ≤ interval) :
    ∀ (tasks : List (String × String)) (i : Nat) (st : SchedState),
    (∀ rec ∈ (runTasks interval oracle tasks i st).1,
        rec.processedAtStart < interval) ∧
    (st.processed ≤ interval →
      (runTasks interval oracle tasks i st).2.processed ≤ interval) := by
  intro tasks
  induction tasks with
  | nil =>
    intro i st
    constructor
    · intro rec hmem; simp [runTasks] at hmem
    · intro h; simpa [runTasks] using h
  | cons t rest ih =>
    intro i st
    constructor
    · intro rec hmem
      simp only [runTasks, List.mem_cons] at hmem
      cases hmem with
      | inl he => rw [he]; exact (stepTaskBounds interval st (oracle i) h1).1
      | inr hm => exact (ih (i + 1) (stepTask interval st (oracle i)).2).1 rec hm
    · intro _
      exact (ih (i + 1) (stepTask interval st (oracle i)).2).2
        (stepTaskBounds interval st (oracle i) h1).2

/-- The task loop records exactly one outcome per task. -/
theorem runTasksLength (interval : Nat) (oracle : Nat → TaskOutcome) :
    ∀ (tasks : List (String × String)) (i : Nat) (st : SchedState),
    (runTasks interval oracle tasks i st).1.length = tasks.length := by
  intro tasks
  induction tasks with
  | nil => intro i st; rfl
  | cons t rest ih => intro i st; simp [runTasks, ih]

/-- Each record is counted once: successes plus failures equal records. -/
theorem countsSplit : ∀ recs : List TaskRecord,
    successCountOf recs + failureCountOf recs = recs.length := by
  intro recs
  induction recs with
  | nil => rfl
  | cons r rest ih =>
    simp only [successCountOf, failureCountOf, List.countP_cons] at ih ⊢
    cases h : r.ok <;> simp [h] <;> omega

/-- For one size, the two counters sum to the number of declared tasks. -/
theorem processSizeTotal (shots : List Screenshot) (sz : SizeSpec)
    (oracle : Nat → TaskOutcome) :
    (processSize shots sz oracle).1 + (processSize shots sz oracle).2
      = (taskList shots).length := by
  unfold processSize
  rw [countsSplit, runTasksLength]

/-- Across sizes, summed per-size totals are sizes times tasks per size. -/
theorem runSizesTotal (shots : List Screenshot) (oracle : Nat → Nat → TaskOutcome) :
    ∀ (szs : List SizeSpec) (i : Nat),
    ((runSizes shots oracle szs i).map (fun c => c.1 + c.2)).sum
      = szs.length * (taskList shots).length := by
  intro szs
  induction szs with
  | nil => intro i; simp [runSizes]
  | cons sz rest ih =>
    intro i
    simp only [runSizes, List.map_cons, List.sum_cons, List.length_cons, ih]
    rw [processSizeTotal]
    ring

/-- Summing first and second components separately agrees with summing the
pairwise totals. -/
theorem sumPairSplit : ∀ l : List (Nat × Nat),
    (l.map Prod.fst).sum + (l.map Prod.snd).sum
      = (l.map (fun c => c.1 + c.2)).sum := by
  intro l
  induction l with
  | nil => rfl
  | cons c rest ih => simp only [List.map_cons, List.sum_cons]; omega

/-- A filter and its complement partition a list's length. -/
theorem filterSplitLength (p : SizeSpec → Bool) : ∀ l : List SizeSpec,
    (l.filter p).length + (l.filter (fun a => !p a)).length = l.length := by
  intro l
  induction l with
  | nil => rfl
  | cons a rest ih => cases h : p a <;> simp [List.filter_cons, h] <;> omega

/-- The wave partition preserves the number of sizes. -/
theorem sizesInOrderLength (cfg : Config) :
    (sizesInOrder cfg).length = cfg.sizes.length := by
  unfold sizesInOrder
  rw [List.length_append]
  exact filterSplitLength (fun s => isIphoneSize s.device) cfg.sizes

/-- The number of declared tasks per size is the sum of the per-screenshot
locale counts. -/
theorem taskListLength : ∀ shots : List Screenshot,
    (taskList shots).length = (shots.map (fun s => s.titles.length)).sum := by
  intro shots
  induction shots with
  | nil => rfl
  | cons s rest ih => simp [taskList, ih]

/-- Summing a constant locale count over the screenshots. -/
theorem sumConstList (t0 : Nat) : ∀ shots : List Screenshot,
    (∀ s ∈ shots, s.titles.length = t0) →
    (shots.map (fun s => s.titles.length)).sum = shots.length * t0 := by
  intro shots
  induction shots with
  | nil => intro _; simp
  | cons s rest ih =>
    intro h
    simp only [List.map_cons, List.sum_cons, List.length_cons]
    rw [ih (fun x hx => h x (List.mem_cons_of_mem _ hx)),
      h s (List.mem_cons_self _ _)]
    ring

/-- `runMain` on a configuration with a nonempty screenshot list, spelled
out. -/
theorem runMainConsEq (s0 : Screenshot) (ss : List Screenshot)
    (sizes : List SizeSpec) (oracle : Nat → Nat → TaskOutcome) :
    runMain ⟨s0 :: ss, sizes⟩ oracle = Except.ok
      ⟨((runSizes (s0 :: ss) oracle (sizesInOrder ⟨s0 :: ss, sizes⟩) 0).map Prod.fst).sum,
       ((runSizes (s0 :: ss) oracle (sizesInOrder ⟨s0 :: ss, sizes⟩) 0).map Prod.snd).sum,
       (s0 :: ss).length * s0.titles.length * sizes.length,
       if 0 < ((runSizes (s0 :: ss) oracle (sizesInOrder ⟨s0 :: ss, sizes⟩) 0).map Prod.snd).sum
         then 1 else 0⟩ := rfl

/-- C1 (counterexample): with two screenshots declaring 1 and 2 locales and
one size, the run records 3 outcomes while `totalExpected` is 2 — the claim
that `successCount + failureCount = totalExpected` holds in particular when
different screenshots declare different locale sets is false, because
`main` derives the locale count from the first screenshot only. -/
theorem c1_total_cx :
    runMain cfgMismatch oracleAllOk = Except.ok ⟨3, 0, 2, 0⟩ ∧
    3 + 0 ≠ 2 := ⟨rfl, by decide⟩

/-- C1 (amended): when every screenshot declares the same number of locales,
the aggregated counters at run end satisfy
`successCount + failureCount = totalExpected`. -/
theorem c1_total_invariant (cfg : Config) (oracle : Nat → Nat → TaskOutcome)
    (hne : cfg.screenshots ≠ [])
    (hloc : ∀ s ∈ cfg.screenshots, ∀ u ∈ cfg.screenshots,
      s.titles.length = u.titles.length) :
    ∃ r : RunResult, runMain cfg oracle = Except.ok r ∧
      r.successCount + r.failureCount = r.totalExpected := by
  obtain ⟨screens, sizes⟩ := cfg
  cases screens with
  | nil => simp at hne
  | cons s0 ss =>
    refine ⟨_, runMainConsEq s0 ss sizes oracle, ?_⟩
    show ((runSizes (s0 :: ss) oracle (sizesInOrder ⟨s0 :: ss, sizes⟩) 0).map Prod.fst).sum
        + ((runSizes (s0 :: ss) oracle (sizesInOrder ⟨s0 :: ss, sizes⟩) 0).map Prod.snd).sum
        = (s0 :: ss).length * s0.titles.length * sizes.length
    have hconst : ((s0 :: ss).map (fun s => s.titles.length)).sum
        = (s0 :: ss).length * s0.titles.length :=
      sumConstList s0.titles.length (s0 :: ss)
        (fun s hsm => hloc s hsm s0 (List.mem_cons_self _ _))
    have hlen : (sizesInOrder ⟨s0 :: ss, sizes⟩).length = sizes.length :=
      sizesInOrderLength ⟨s0 :: ss, sizes⟩
    rw [sumPairSplit, runSizesTotal, taskListLength, hconst, hlen]
    ring

/-- C1 (witness): the amended invariant holds on a concrete configuration
with two screenshots of one locale each and one size. -/
theorem c1_total_witness :
    ∃ r : RunResult, runMain cfgUniform oracleAllOk = Except.ok r ∧
      r.successCount + r.failureCount = r.totalExpected :=
  c1_total_invariant cfgUniform oracleAllOk (by decide) (by decide)

/-- C2: a task whose every attempt throws performs exactly three attempts —
`Attempting(1) → Attempting(2) → Attempting(3) → Failed` — and each retry
attempt restarts the chain from the page reload (the trace is three
chain runs from index 0, separated by the catch-block recovery sequence);
the result is the boolean false, not an escaped exception, for every choice
of failing step per attempt. -/
theorem c2_retry_exhaustion (p : String) (k1 k2 k3 : Nat)
    (h1 : k1 < attemptChain.length) (h2 : k2 < attemptChain.length)
    (h3 : k3 < attemptChain.length) :
    processScreenshot true p
      (fun n => if n = 1 then some k1 else if n = 2 then some k2 else some k3) 1
    = ⟨false, 3,
        attemptChain.take (k1 + 1) ++ retrySeq ++
          (attemptChain.take (k2 + 1) ++ retrySeq ++ attemptChain.take (k3 + 1))⟩ := by
  rw [processScreenshot, processScreenshot, processScreenshot]
  norm_num [MAX_RETRIES]

/-- C2 (witness): all three attempts failing at the export step, evaluated
concretely: three full chain runs, final result Failed at attempt 3. -/
theorem c2_retry_witness :
    processScreenshot true "raw/en/home-screen.png"
      (fun n => if n = 1 then some 7 else if n = 2 then some 7 else some 7) 1
    = ⟨false, 3,
        attemptChain.take (7 + 1) ++ retrySeq ++
          (attemptChain.take (7 + 1) ++ retrySeq ++ attemptChain.take (7 + 1))⟩ :=
  c2_retry_exhaustion "raw/en/home-screen.png" 7 7 7 (by decide) (by decide)
    (by decide)

/-- C3: a task whose source file is absent returns Failed at once with the
attempt counter still at 1, performs no page interaction (its trace is just
the log event), and logs the resolved raw path. -/
theorem c3_missing_source (dirname locale screenshotId : String)
    (rawDir : Option String) (env : Nat → Option Nat) :
    processScreenshot false
        (rawPath dirname (sizeRawDirName rawDir) locale screenshotId) env 1
      = ⟨false, 1,
          [Ev.logMissing (rawPath dirname (sizeRawDirName rawDir) locale screenshotId)]⟩ := by
  rw [processScreenshot]; rfl

/-- C4: in one size's session lineage, every task starts with a
since-refresh counter strictly below the configured interval (6 when the
label contains "ipad", 12 otherwise), the counter never exceeds the
interval, and a task starting when the counter has reached exactly the
interval begins against a newly created context with a zeroed counter. -/
theorem c4_session_refresh (dev : String) (oracle : Nat → TaskOutcome)
    (tasks : List (String × String)) :
    (∀ rec ∈ (runTasks (refreshInterval dev) oracle tasks 0 ⟨0, 0⟩).1,
        rec.processedAtStart < refreshInterval dev) ∧
    (runTasks (refreshInterval dev) oracle tasks 0 ⟨0, 0⟩).2.processed
        ≤ refreshInterval dev ∧
    (∀ (st : SchedState) (o : TaskOutcome),
      st.processed = refreshInterval dev →
      (stepTask (refreshInterval dev) st o).1.ctxAtStart = st.ctx + 1 ∧
      (stepTask (refreshInterval dev) st o).1.processedAtStart = 0) := by
  refine ⟨(runTasksInv _ oracle (refreshIntervalPos dev) tasks 0 ⟨0, 0⟩).1,
    (runTasksInv _ oracle (refreshIntervalPos dev) tasks 0 ⟨0, 0⟩).2
      (Nat.zero_le _),
    fun st o h => stepTaskRefresh _ st o h⟩

/-- C4 (witness): for an iPad label the interval is 6; a state that has
processed 6 tasks makes the next task begin against context 5 (one past
context 4) with counter 0. -/
theorem c4_session_refresh_witness :
    (stepTask (refreshInterval "iPad Pro 13") ⟨4, 6⟩
      (TaskOutcome.normal true)).1.ctxAtStart = 5 ∧
    (stepTask (refreshInterval "iPad Pro 13") ⟨4, 6⟩
      (TaskOutcome.normal true)).1.processedAtStart = 0 :=
  (c4_session_refresh "iPad Pro 13" (fun _ => TaskOutcome.normal true) []).2.2
    ⟨4, 6⟩ (TaskOutcome.normal true) (by decide)

/-- C5 (counterexample): sanitization conflates distinct size labels, so two
distinct tasks can collide on output path: labels "a b" and "a_b" yield the
same path for the same locale and artifact id. -/
theorem c5_collision_cx :
    outputPath "out" "en" "a b" "shot" = outputPath "out" "en" "a_b" "shot" ∧
    ("a b" : String) ≠ "a_b" := by decide

/-- C5 (amended): the output path is the pure function
`{outputRoot}/{locale}/{sanitizedSizeLabel}/{artifactId}.png` — on the
spec's example it is exactly `{outputRoot}/de/iPhone_6.9_/home-screen.png` —
and two tasks collide only when their locales, sanitized size labels and
artifact ids all coincide, provided locales and sanitized labels contain no
path separator (sanitization may conflate distinct raw labels). -/
theorem c5_path_deterministic :
    (∀ root : String, outputPath root "de" "iPhone 6.9\"" "home-screen"
        = root ++ "/de/iPhone_6.9_/home-screen.png") ∧
    (∀ root l1 s1 i1 l2 s2 i2 : String,
      ('/' : Char) ∉ l1.data → ('/' : Char) ∉ (sanitizeSize s1).data →
      ('/' : Char) ∉ l2.data → ('/' : Char) ∉ (sanitizeSize s2).data →
      outputPath root l1 s1 i1 = outputPath root l2 s2 i2 →
      l1 = l2 ∧ sanitizeSize s1 = sanitizeSize s2 ∧ i1 = i2) := by
  constructor
  · intro root
    apply strDataInj
    show pathChars root.data _ _ _ = (root ++ "/de/iPhone_6.9_/home-screen.png").data
    have hd : (root ++ "/de/iPhone_6.9_/home-screen.png").data
        = root.data ++ "/de/iPhone_6.9_/home-screen.png".data := rfl
    rw [hd]
    unfold pathChars
    congr 1
  · intro root l1 s1 i1 l2 s2 i2 hl1 hz1 hl2 hz2 heq
    have h : pathChars root.data l1.data (sanitizeSize s1).data i1.data
        = pathChars root.data l2.data (sanitizeSize s2).data i2.data :=
      congrArg String.data heq
    unfold pathChars at h
    have h1 := List.append_cancel_left h
    injection h1 with _ h2
    obtain ⟨hll, h3⟩ := splitSep _ _ _ _ hl1 hl2 h2
    obtain ⟨hzz, h4⟩ := splitSep _ _ _ _ hz1 hz2 h3
    have hii : i1.data = i2.data := List.append_cancel_right h4
    exact ⟨strDataInj _ _ hll, strDataInj _ _ hzz, strDataInj _ _ hii⟩

/-- C5 (witness): the path formula and the injectivity hypotheses evaluated
at the spec's concrete example. -/
theorem c5_path_witness :
    outputPath "out" "de" "iPhone 6.9\"" "home-screen"
      = "out/de/iPhone_6.9_/home-screen.png" ∧
    (("de" : String) = "de" ∧
      sanitizeSize "iPhone 6.9\"" = sanitizeSize "iPhone 6.9\"" ∧
      ("home-screen" : String) = "home-screen") :=
  ⟨(c5_path_deterministic.1 "out").trans (by decide),
   c5_path_deterministic.2 "out" "de" "iPhone 6.9\"" "home-screen" "de"
     "iPhone 6.9\"" "home-screen" (by decide) (by decide) (by decide)
     (by decide) rfl⟩

/-- C6 (counterexample): a configuration with an empty screenshots list
exits with status 1 although no task recorded a Failure — the run aborts
fatally before scheduling, so "non-zero exit iff at least one task
Failure" is false as stated. -/
theorem c6_exit_cx :
    mainExit cfgNoShots oracleAllOk = 1 ∧
    runMain cfgNoShots oracleAllOk = Except.error errTitles := ⟨rfl, rfl⟩

/-- C6 (amended): provided the screenshots list is nonempty (so the run
reaches scheduling), the run exits non-zero iff at least one task recorded
a Failure, exits zero iff none did, and every declared task is recorded
exactly once — sizes times the (screenshot, locale) cross product — with no
early abort. -/
theorem c6_exit_iff_failure (cfg : Config) (oracle : Nat → Nat → TaskOutcome)
    (hne : cfg.screenshots ≠ []) :
    ∃ r : RunResult, runMain cfg oracle = Except.ok r ∧
      (mainExit cfg oracle = 1 ↔ 0 < r.failureCount) ∧
      (mainExit cfg oracle = 0 ↔ r.failureCount = 0) ∧
      r.successCount + r.failureCount
        = cfg.sizes.length * (taskList cfg.screenshots).length := by
  obtain ⟨screens, sizes⟩ := cfg
  cases screens with
  | nil => simp at hne
  | cons s0 ss =>
    have hlen : (sizesInOrder ⟨s0 :: ss, sizes⟩).length = sizes.length :=
      sizesInOrderLength ⟨s0 :: ss, sizes⟩
    refine ⟨_, runMainConsEq s0 ss sizes oracle, ?_, ?_, ?_⟩
    · have hme : mainExit ⟨s0 :: ss, sizes⟩ oracle
          = (if 0 < ((runSizes (s0 :: ss) oracle (sizesInOrder ⟨s0 :: ss, sizes⟩) 0).map
              Prod.snd).sum then 1 else 0) := rfl
      rw [hme]
      by_cases h : 0 < ((runSizes (s0 :: ss) oracle
          (sizesInOrder ⟨s0 :: ss, sizes⟩) 0).map Prod.snd).sum <;>
        simp [h]
    · have hme : mainExit ⟨s0 :: ss, sizes⟩ oracle
          = (if 0 < ((runSizes (s0 :: ss) oracle (sizesInOrder ⟨s0 :: ss, sizes⟩) 0).map
              Prod.snd).sum then 1 else 0) := rfl
      rw [hme]
      by_cases h : 0 < ((runSizes (s0 :: ss) oracle
          (sizesInOrder ⟨s0 :: ss, sizes⟩) 0).map Prod.snd).sum <;>
        simp [h] <;> omega
    · show ((runSizes (s0 :: ss) oracle (sizesInOrder ⟨s0 :: ss, sizes⟩) 0).map Prod.fst).sum
          + ((runSizes (s0 :: ss) oracle (sizesInOrder ⟨s0 :: ss, sizes⟩) 0).map Prod.snd).sum
          = sizes.length * (taskList (s0 :: ss)).length
      rw [sumPairSplit, runSizesTotal, hlen]

/-- C6 (witness): the amended statement on the concrete configuration with
two screenshots, one locale each, one size. -/
theorem c6_exit_witness :
    ∃ r : RunResult, runMain cfgUniform oracleAllOk = Except.ok r ∧
      (mainExit cfgUniform oracleAllOk = 1 ↔ 0 < r.failureCount) ∧
      (mainExit cfgUniform oracleAllOk = 0 ↔ r.failureCount = 0) ∧
      r.successCount + r.failureCount
        = cfgUniform.sizes.length * (taskList cfgUniform.screenshots).length :=
  c6_exit_iff_failure cfgUniform oracleAllOk (by decide)

/-- C7 (counterexample): with an explicit override supplied and the local
probe responding ok, the resolved URL is the override, not the local
address — the claim that a reachable local instance wins regardless of any
override is false. -/
theorem c7_url_cx :
    detectYuzuUrl (some "http://example.com:9999") ProbeResult.ok
      = "http://example.com:9999" ∧
    detectYuzuUrl (some "http://example.com:9999") ProbeResult.ok ≠ localUrl := by
  exact ⟨rfl, by decide⟩

/-- C7 (amended): the actual precedence is explicit override first; with no
override, the local address exactly when the probe response is ok;
otherwise the fixed public fallback. -/
theorem c7_url_precedence :
    (∀ (u : String) (p : ProbeResult), detectYuzuUrl (some u) p = u) ∧
    detectYuzuUrl none ProbeResult.ok = localUrl ∧
    detectYuzuUrl none ProbeResult.notOk = liveDemoUrl ∧
    detectYuzuUrl none ProbeResult.failed = liveDemoUrl :=
  ⟨fun _ _ => rfl, rfl, rfl, rfl⟩

/-- C8: under flip semantics for clicks, each verify-and-correct toggle
operation ends in the caller's requested state whatever the prior state:
frame enable and headline enable end active, subheadline disable ends
inactive. -/
theorem c8_toggle_outcome : ∀ s : Bool,
    frameToggleVerify s = true ∧ headlineToggleEnable s = true ∧
    subheadlineToggleDisable s = false := by decide

/-- C9: the declared 90-second per-screenshot bound is never applied — an
attempt whose chain operations take longer than 90 seconds in total (each
within its own per-operation bound) still completes as a success on attempt
1 with no caller-level abort, and the 90000ms value occurs in none of the
wait or timeout bounds the chain actually applies. -/
theorem c9_timeout_never_applied :
    (processScreenshot true "raw/en/home-screen.png" (fun _ => none) 1).ok = true ∧
    (processScreenshot true "raw/en/home-screen.png" (fun _ => none) 1).attempts = 1 ∧
    PER_SCREENSHOT_TIMEOUT_MS
      < elapsedMs exampleDur
          (processScreenshot true "raw/en/home-screen.png" (fun _ => none) 1).trace ∧
    PER_SCREENSHOT_TIMEOUT_MS ∉ appliedTimeoutsMs := by
  have h : processScreenshot true "raw/en/home-screen.png" (fun _ => none) 1
      = ⟨true, 1, attemptChain⟩ := by rw [processScreenshot]; rfl
  rw [h]
  exact ⟨rfl, rfl, by decide, by decide⟩

/-- C10: a configuration with an empty screenshots list makes the run abort
fatally (the totals computation reads the first screenshot's titles with no
guard) and exit with status 1, before any size is scheduled — it does not
complete with zero tasks and exit 0. -/
theorem c10_empty_screenshots (cfg : Config) (oracle : Nat → Nat → TaskOutcome)
    (h : cfg.screenshots = []) :
    runMain cfg oracle = Except.error errTitles ∧ mainExit cfg oracle = 1 := by
  obtain ⟨screens, sizes⟩ := cfg
  cases screens with
  | nil => exact ⟨rfl, rfl⟩
  | cons a l => simp at h

/-- C10 (witness): the empty-screenshots configuration evaluated
concretely. -/
theorem c10_empty_screenshots_witness :
    runMain cfgNoShots oracleAllOk = Except.error errTitles ∧
    mainExit cfgNoShots oracleAllOk = 1 :=
  c10_empty_screenshots cfgNoShots oracleAllOk rfl

end Appshot
